import Mathlib

/-!
Verification of the `stock_analysis` momentum/EMA strategy code
(`stock_analysis/indicator.py`, `stock_analysis/unit_strategy.py`).

The Python code is shallowly embedded below.  Prices are modelled as
rationals, a price series as a `List Quote`, and Python exceptions as an
explicit error type `PyErr` threaded through `Except`.  External
collaborators that are not part of the two source files (the market-data
provider `DataRetrive`, the monthly-anchor helper
`get_appropriate_date_momentum`, the day-difference of pandas timestamps,
and the real-power used by `annualized_rate_of_return`) are abstracted as
parameters of the pipeline, so every theorem holds for all of their
behaviours.
-/

/-- Kinds of Python exceptions that the embedded code can raise or catch.
`unboundLocalError` models `return ema` executing when the loop body never
ran; `connectionError` stands for any provider-side failure whose type is
none of the others. -/
inductive PyErr where
  | indexError
  | keyError
  | valueError
  | zeroDivisionError
  | unboundLocalError
  | typeError
  | mergeError
  | connectionError
deriving DecidableEq, Repr

/-- The exception types caught by the `except (IndexError, KeyError,
ValueError)` clause of `UnitStrategy._parallel_momentum`
(unit_strategy.py line 218). -/
def caughtByMomentum : PyErr → Bool
  | .indexError => true
  | .keyError => true
  | .valueError => true
  | _ => false

/-- A calendar date.  The Python records hold `strftime('%d-%m-%Y')`
strings; since that format is injective on dates we keep the date itself. -/
structure Date where
  year : Nat
  month : Nat
  day : Nat
deriving DecidableEq, Repr

/-- `datetime.datetime(1000, 1, 1)`, the sentinel used for failed
companies; it prints as `01-01-1000`. -/
def sentinelDate : Date := { year := 1000, month := 1, day := 1 }

/-! ## Indicator.ema: the EMA computation (indicator.py lines 86-123) -/

/-- The loop `for idx in range(1, len(data)-50)` of
`Indicator._exponential_moving_avarage` (indicator.py lines 118-122).
Each pass reads `data[idx + 50]` and advances `idx` by one; the `if idx ==
(len(data) - 50): break` in the Python body can never fire (the range stops
one short of it) so it is not modelled.  The `getD` default is unreachable:
the guard keeps `idx + 50 < data.length`. -/
def ema_loop (data : List ℚ) (mf : ℚ) (idx : Nat) (pre : ℚ) : ℚ :=
  if h : idx < data.length - 50 then
    ema_loop data mf (idx + 1) (data.getD (idx + 50) 0 * mf + pre * (1 - mf))
  else
    pre
termination_by data.length - 50 - idx
decreasing_by omega

/-- `Indicator._exponential_moving_avarage(data, period, smoothing_factor)`
(indicator.py lines 86-123).  Failure modes, in the order Python meets
them: `period = 0` makes `sum(data[:period]) / period` raise
`ZeroDivisionError`; `data[period]` raises an index/key error when the
series is too short; and when `range(1, len(data)-50)` is empty the final
`return ema` raises `UnboundLocalError` because the loop never assigned
`ema`. -/
def _exponential_moving_avarage (data : List ℚ) (period : Nat)
    (smoothing_factor : ℚ) : Except PyErr ℚ :=
  if period = 0 then .error .zeroDivisionError
  else
    match data.get? period with
    | none => .error .indexError
    | some dataPeriod =>
      let mf : ℚ := smoothing_factor / (1 + (period : ℚ))
      let sma0 : ℚ := ((data.take period).sum) / (period : ℚ)
      let ema0 : ℚ := dataPeriod * mf + sma0 * (1 - mf)
      if data.length ≤ 51 then .error .unboundLocalError
      else .ok (ema_loop data mf 1 ema0)

/-! ## The momentum pipeline (unit_strategy.py) -/

/-- One row of the price frame returned by the provider, after
`reset_index()` turned the date index into a column: its date and close. -/
structure Quote where
  date : Date
  close : ℚ
deriving DecidableEq, Repr

/-- The dictionary returned by `_parallel_momentum` (unit_strategy.py
lines 226-236).  `none` models `pd.NA`.  The three date fields that are
always produced by `strftime` are plain dates; `monthly_start_date` can be
`pd.NA` (failure branch), hence `Option Date`. -/
structure MomentumRecord where
  company : String
  yearly_start_date : Date
  yearly_start_date_close : Option ℚ
  yearly_end_date : Date
  yearly_end_date_close : Option ℚ
  return_yearly : Option ℚ
  monthly_start_date : Option Date
  monthly_start_date_close : Option ℚ
  monthly_end_date : Date
  monthly_end_date_close : Option ℚ
  return_monthly : Option ℚ
deriving DecidableEq, Repr

/-- Whether `momentum_df.dropna()` (unit_strategy.py line 96) drops this
row: true iff some field of the row is `pd.NA`. -/
def MomentumRecord.hasNA (r : MomentumRecord) : Bool :=
  r.yearly_start_date_close.isNone || r.yearly_end_date_close.isNone ||
  r.return_yearly.isNone || r.monthly_start_date.isNone ||
  r.monthly_start_date_close.isNone || r.monthly_end_date_close.isNone ||
  r.return_monthly.isNone

/-- The record built by the `except` branch of `_parallel_momentum`
(unit_strategy.py lines 218-236): the frame is replaced by 30 rows of
`datetime(1000, 1, 1)` dates and `pd.NA` closes, and `ar_yearly`,
`ar_monthly`, `monthly_start_date` are all set to `pd.NA`, so every close
and return is `pd.NA`, the three `strftime` dates are the sentinel, and
`monthly_start_date` is `pd.NA`. -/
def unusableRecord (company : String) : MomentumRecord :=
  { company := company
    yearly_start_date := sentinelDate
    yearly_start_date_close := none
    yearly_end_date := sentinelDate
    yearly_end_date_close := none
    return_yearly := none
    monthly_start_date := none
    monthly_start_date_close := none
    monthly_end_date := sentinelDate
    monthly_end_date_close := none
    return_monthly := none }

/-- Modelled from the spec: `annualized_rate_of_return` lives in
`stock_analysis.utils.formula_helpers`, which is not under src/.  The spec
defines AnnualizedReturn(startPrice, endPrice, durationYears) =
`(endPrice/startPrice)^(1/durationYears) - 1`, failing with DivisionByZero
when startPrice = 0.  Real exponentiation is not rational-valued, so it is
abstracted as the parameter `pw` (every theorem below is proved for all
`pw`); the argument names follow the Python keyword names. -/
def annualized_rate_of_return (pw : ℚ → ℚ → ℚ)
    (end_date start_date duration : ℚ) : Except PyErr ℚ :=
  if start_date = 0 then .error .zeroDivisionError
  else .ok (pw (end_date / start_date) (1 / duration) - 1)

/-- `df.iloc[-k]` on a frame of rows `l`: the `k`-th row from the end,
raising `IndexError` when the frame has fewer than `k` rows. -/
def iloc_neg (l : List Quote) (k : Nat) : Except PyErr Quote :=
  if k ≤ l.length then
    match l.get? (l.length - k) with
    | some q => .ok q
    | none => .error .indexError
  else .error .indexError

/-- `df.iloc[0]` on a frame of rows `l`, raising `IndexError` when empty. -/
def iloc_zero (l : List Quote) : Except PyErr Quote :=
  match l.get? 0 with
  | some q => .ok q
  | none => .error .indexError

/-- The intermediate values computed inside the `try` block of
`_parallel_momentum`: the frame rows used by the returned dictionary plus
the two returns and the monthly anchor date. -/
structure TryOut where
  df : List Quote
  firstQ : Quote
  lastQ : Quote
  m30 : Quote
  ar_yearly : ℚ
  ar_monthly : ℚ
  anchor_date : Date
deriving Repr

/-- The `try` block of `_parallel_momentum` (unit_strategy.py lines
201-217), in Python evaluation order: fetch the series, `iloc[-1]` and
`iloc[0]` feeding `ar_yearly`, then for `ar_monthly` the keyword arguments
`end_date` (already computed), `start_date` (the anchor's close) and
`duration` (day difference of `iloc[-1,0]` and `iloc[-30,0]` over 30).
`fetch` abstracts `DataRetrive.single_company_specific` (not under src/),
`anchor` abstracts `get_appropriate_date_momentum` (not under src/; the
spec leaves its policy open), and `daysBetween` abstracts pandas timestamp
subtraction.  The anchor is called twice in the Python with identical
arguments except verbosity; being deterministic it is modelled once. -/
def momentumTryBody (pw : ℚ → ℚ → ℚ)
    (fetch : String → Except PyErr (List Quote))
    (anchor : List Quote → String → Except PyErr (Date × ℚ))
    (daysBetween : Date → Date → ℤ)
    (company : String) : Except PyErr TryOut :=
  match fetch company with
  | .error e => .error e
  | .ok df =>
    match iloc_neg df 1 with
    | .error e => .error e
    | .ok lastQ =>
      match iloc_zero df with
      | .error e => .error e
      | .ok firstQ =>
        match annualized_rate_of_return pw lastQ.close firstQ.close 1 with
        | .error e => .error e
        | .ok ar_yearly =>
          match anchor df company with
          | .error e => .error e
          | .ok a =>
            match iloc_neg df 30 with
            | .error e => .error e
            | .ok m30 =>
              match annualized_rate_of_return pw lastQ.close a.2
                  (((daysBetween lastQ.date m30.date : ℤ) : ℚ) / 30) with
              | .error e => .error e
              | .ok ar_monthly =>
                .ok { df := df, firstQ := firstQ, lastQ := lastQ, m30 := m30
                      ar_yearly := ar_yearly, ar_monthly := ar_monthly
                      anchor_date := a.1 }

/-- `UnitStrategy._parallel_momentum` (unit_strategy.py lines 193-236):
run the `try` block; on `IndexError`/`KeyError`/`ValueError` substitute
the sentinel frame and `pd.NA` values, on any other exception propagate;
then build the result dictionary. -/
def _parallel_momentum (pw : ℚ → ℚ → ℚ)
    (fetch : String → Except PyErr (List Quote))
    (anchor : List Quote → String → Except PyErr (Date × ℚ))
    (daysBetween : Date → Date → ℤ)
    (company : String) : Except PyErr MomentumRecord :=
  match momentumTryBody pw fetch anchor daysBetween company with
  | .ok t =>
      .ok { company := company
            yearly_start_date := t.firstQ.date
            yearly_start_date_close := some t.firstQ.close
            yearly_end_date := t.lastQ.date
            yearly_end_date_close := some t.lastQ.close
            return_yearly := some t.ar_yearly
            monthly_start_date := some t.anchor_date
            monthly_start_date_close := some t.m30.close
            monthly_end_date := t.lastQ.date
            monthly_end_date_close := some t.lastQ.close
            return_monthly := some t.ar_monthly }
  | .error e =>
      if caughtByMomentum e then .ok (unusableRecord company) else .error e

/-! ## The worker pool (unit_strategy.py lines 90-94) -/

/-- The pool size expression `multiprocessing.cpu_count() - 1`
(unit_strategy.py line 90); Python's subtraction is modelled by truncated
`Nat` subtraction since `cpu_count() ≥ 1`. -/
def pool_size (cpu_count : Nat) : Nat := cpu_count - 1

/-- `multiprocessing.Pool(processes)`: raises `ValueError("Number of
processes must be at least 1")` when `processes < 1`, otherwise yields the
pool. -/
def Pool_create (processes : Nat) : Except PyErr Nat :=
  if processes < 1 then .error .valueError else .ok processes

/-- The worker pool completes task indices in the order `order` (one entry
per task), pairing each completed index with its result; tasks are pure,
so the result of task `i` is `f i` regardless of schedule. -/
def pool_completed (f : Nat → α) (order : List Nat) : List (Nat × α) :=
  order.map (fun i => (i, f i))

/-- `pool.starmap` gathers completed results back into task-index order.
The `junk` default is unreachable whenever `order` is a permutation of
`List.range n`, which is what a real pool produces. -/
def pool_gather (n : Nat) (completed : List (Nat × α)) (junk : α) : List α :=
  (List.range n).map (fun i =>
    (Option.map Prod.snd (completed.find? (fun p => p.1 == i))).getD junk)

/-- `pool.starmap(f, args)` under completion schedule `order`. -/
def pool_starmap (f : Nat → α) (n : Nat) (order : List Nat) (junk : α) :
    List α :=
  pool_gather n (pool_completed f order) junk

/-- `pool.starmap` re-raises a worker's exception in the parent: the
collected per-task outcomes are sequenced in task order and the first
error (if any) is raised. -/
def collectResults : List (Except PyErr α) → Except PyErr (List α)
  | [] => .ok []
  | x :: xs =>
    match x with
    | .error e => .error e
    | .ok a =>
      match collectResults xs with
      | .error e => .error e
      | .ok rest => .ok (a :: rest)

/-! ## momentum_strategy (unit_strategy.py lines 48-114) -/

/-- The sort key of `sort_values(by=['return_yearly'], ...)`; the rows
being sorted have already passed `dropna()`, so the default `0` for a
`pd.NA` return is never consulted. -/
def keyRY (r : MomentumRecord) : ℚ := r.return_yearly.getD 0

/-- Row comparison by ascending `return_yearly`. -/
def leRY (a b : MomentumRecord) : Prop := keyRY a ≤ keyRY b

instance : DecidableRel leRY :=
  fun a b => inferInstanceAs (Decidable (keyRY a ≤ keyRY b))

instance : IsTotal MomentumRecord leRY :=
  ⟨fun a b => le_total (keyRY a) (keyRY b)⟩

instance : IsTrans MomentumRecord leRY :=
  ⟨fun _ _ _ h1 h2 => le_trans h1 h2⟩

/-- `df.sort_values(by=['return_yearly'], ascending=False)` with the
default `kind='quicksort'`: pandas argsorts the column ascending and then
reverses the indexer, so a descending sort is an ascending sort followed
by a reversal (rows with equal keys therefore come out in reverse input
order).  numpy's introsort degenerates to a stable insertion sort on the
small frames used in the theorems below, so the ascending pass is
modelled as a stable insertion sort. -/
def sort_values_desc (l : List MomentumRecord) : List MomentumRecord :=
  (List.insertionSort leRY l).reverse

/-- `UnitStrategy.momentum_strategy` (unit_strategy.py lines 48-114) on
the `save=False` path, with the end-date resolution and CSV/logging I/O
out of scope: create the pool (`cpu_count - 1` workers), fan
`_parallel_momentum` out over the companies under completion schedule
`order`, collect (re-raising a worker error), `dropna()`, sort by
`return_yearly` descending, and return the top `top_company_count` rows. -/
def momentum_strategy (pw : ℚ → ℚ → ℚ)
    (fetch : String → Except PyErr (List Quote))
    (anchor : List Quote → String → Except PyErr (Date × ℚ))
    (daysBetween : Date → Date → ℤ)
    (companies : List String) (top_company_count : Nat)
    (cpu_count : Nat) (order : List Nat) :
    Except PyErr (List MomentumRecord) :=
  match Pool_create (pool_size cpu_count) with
  | .error e => .error e
  | .ok _ =>
    match collectResults
        (pool_starmap
          (fun i => _parallel_momentum pw fetch anchor daysBetween
            (companies.getD i ""))
          companies.length order (.ok (unusableRecord ""))) with
    | .error e => .error e
    | .ok result =>
      .ok ((sort_values_desc (result.filter (fun r => !r.hasNA))).take
        top_company_count)

/-- The schedule-free per-company outcomes, in input order. -/
def momentum_results (pw : ℚ → ℚ → ℚ)
    (fetch : String → Except PyErr (List Quote))
    (anchor : List Quote → String → Except PyErr (Date × ℚ))
    (daysBetween : Date → Date → ℤ)
    (companies : List String) : Except PyErr (List MomentumRecord) :=
  collectResults (companies.map (_parallel_momentum pw fetch anchor daysBetween))

/-! ## momentum_with_ema_strategy and the merge step
(unit_strategy.py lines 116-191, indicator.py lines 16-83) -/

/-- The buy/sell action column of `ema_indicator`. -/
inductive EmaAction where
  | buy
  | sell
deriving DecidableEq, Repr

/-- One row of the frame built by `Indicator.ema_indicator`
(indicator.py lines 55, 71-75). -/
structure EMARecord where
  company : String
  ema50 : ℚ
  ema200 : ℚ
  action : EmaAction
deriving DecidableEq, Repr

/-- The merge `momentum_df.merge(ema_df, on='company', validate='1:1')`
(unit_strategy.py lines 175-179): pandas first checks that the key is
unique on both sides, raising `MergeError` otherwise, then performs the
default inner join, keeping the left (momentum) row order. -/
def merge_1to1 (momentum : List MomentumRecord) (ema : List EMARecord) :
    Except PyErr (List (MomentumRecord × EMARecord)) :=
  if (momentum.map MomentumRecord.company).Nodup ∧
      (ema.map EMARecord.company).Nodup then
    .ok (momentum.filterMap (fun m =>
      (ema.find? (fun e => e.company == m.company)).map (fun e => (m, e))))
  else .error .mergeError

/-- The parameter names accepted by `Indicator.__init__`
(indicator.py line 18): only `path`. -/
def Indicator_init_params : List String := ["path"]

/-- The parameter names accepted by `Indicator.ema_indicator`
(indicator.py lines 51-52): `export_path` and `verbosity`. -/
def ema_indicator_params : List String := ["export_path", "verbosity"]

/-- Python keyword-call check: the call raises `TypeError` unless every
keyword argument names an accepted parameter. -/
def call_accepts_kwargs (params : List String) (kwargs : List String) : Bool :=
  kwargs.all (fun k => params.contains k)

/-- `UnitStrategy.momentum_with_ema_strategy` (unit_strategy.py lines
116-191): run `momentum_strategy` (propagating its failure), then
construct `Indicator(company_name=...)` — a `TypeError`, since
`Indicator.__init__` accepts only `path` — then (unreachably) call
`ind.ema_indicator(ema_canditate=..., cutoff_date=..., save=...,
verbosity=...)` — also a `TypeError` against its `(export_path,
verbosity)` signature — and even past that, `ema_indicator` returns
`None`, so `momentum_df.merge(None, ...)` raises `TypeError` before any
merged report exists. -/
def momentum_with_ema_strategy (pw : ℚ → ℚ → ℚ)
    (fetch : String → Except PyErr (List Quote))
    (anchor : List Quote → String → Except PyErr (Date × ℚ))
    (daysBetween : Date → Date → ℤ)
    (companies : List String) (top_company_count : Nat)
    (cpu_count : Nat) (order : List Nat) :
    Except PyErr (List (MomentumRecord × EMARecord)) :=
  match momentum_strategy pw fetch anchor daysBetween companies
      top_company_count cpu_count order with
  | .error e => .error e
  | .ok _momentum_df =>
    if call_accepts_kwargs Indicator_init_params ["company_name"] then
      if call_accepts_kwargs ema_indicator_params
          ["ema_canditate", "cutoff_date", "save", "verbosity"] then
        .error .typeError
      else .error .typeError
    else .error .typeError

/-! ## Helper lemmas -/

/-- The indexed EMA loop is a left fold of the recurrence over the tail of
the series starting at position `idx + 50`. -/
theorem ema_loop_eq_foldl (data : List ℚ) (mf : ℚ) (idx : Nat) (pre : ℚ) :
    ema_loop data mf idx pre =
      (data.drop (idx + 50)).foldl (fun p x => x * mf + p * (1 - mf)) pre := by
  rw [ema_loop]
  by_cases h : idx < data.length - 50
  · simp only [dif_pos h]
    rw [ema_loop_eq_foldl data mf (idx + 1)]
    have h50 : idx + 50 < data.length := by omega
    rw [List.drop_eq_getElem_cons h50, List.foldl_cons]
    have hget : data.getD (idx + 50) 0 = data[idx + 50] := by
      rw [List.getD_eq_getElem?_getD, List.getElem?_eq_getElem h50]
      rfl
    rw [hget]
  · simp only [dif_neg h]
    have hle : data.length ≤ idx + 50 := by omega
    rw [List.drop_eq_nil_of_le hle, List.foldl_nil]
termination_by data.length - 50 - idx
decreasing_by omega

/-- Looking up task `i` among the completed pairs finds its own result,
whatever the completion order, as long as `i` was scheduled. -/
theorem pool_completed_find (f : Nat → α) (order : List Nat) (i : Nat)
    (hi : i ∈ order) :
    (pool_completed f order).find? (fun p => p.1 == i) = some (i, f i) := by
  induction order with
  | nil => cases hi
  | cons j rest ih =>
    simp only [pool_completed, List.map_cons, List.find?_cons]
    by_cases hji : j = i
    · subst hji
      simp
    · have : (j == i) = false := by simp [hji]
      simp only [this]
      rcases List.mem_cons.mp hi with h | h
      · exact absurd h.symm hji
      · exact ih h

/-- Gathering after a complete schedule reproduces the results in task
order: `pool.starmap` output is independent of completion order. -/
theorem pool_starmap_of_perm (f : Nat → α) (n : Nat) (order : List Nat)
    (junk : α) (h : order.Perm (List.range n)) :
    pool_starmap f n order junk = (List.range n).map f := by
  unfold pool_starmap pool_gather
  apply List.map_congr_left
  intro i hi
  have hmem : i ∈ order := h.mem_iff.mpr hi
  rw [pool_completed_find f order i hmem]
  rfl

/-- Applying a function through positional lookup over `List.range` is
just `List.map`. -/
theorem range_map_getD {β : Type} (g : String → β) (l : List String)
    (d : String) :
    (List.range l.length).map (fun i => g (l.getD i d)) = l.map g := by
  induction l with
  | nil => rfl
  | cons a rest ih =>
    simp only [List.length_cons, List.range_succ_eq_map, List.map_cons,
      List.map_map]
    refine congrArg₂ List.cons rfl ?_
    rw [← ih]
    apply List.map_congr_left
    intro i _
    rfl

/-- With at least two logical cores and a complete schedule,
`momentum_strategy` computes the schedule-free pipeline over
`momentum_results`. -/
theorem momentum_strategy_of_perm (pw : ℚ → ℚ → ℚ)
    (fetch : String → Except PyErr (List Quote))
    (anchor : List Quote → String → Except PyErr (Date × ℚ))
    (daysBetween : Date → Date → ℤ)
    (companies : List String) (top_company_count : Nat)
    (cpu_count : Nat) (order : List Nat)
    (hcpu : 2 ≤ cpu_count) (hperm : order.Perm (List.range companies.length)) :
    momentum_strategy pw fetch anchor daysBetween companies
        top_company_count cpu_count order =
      match momentum_results pw fetch anchor daysBetween companies with
      | .error e => .error e
      | .ok result =>
        .ok ((sort_values_desc (result.filter (fun r => !r.hasNA))).take
          top_company_count) := by
  unfold momentum_strategy
  have hpool : Pool_create (pool_size cpu_count) = .ok (cpu_count - 1) := by
    unfold Pool_create pool_size
    rw [if_neg]
    omega
  rw [hpool]
  rw [pool_starmap_of_perm _ _ _ _ hperm]
  rw [range_map_getD (fun c => _parallel_momentum pw fetch anchor daysBetween c)
    companies ""]
  rfl

/-- Inversion of a successful `try` block: the fetched frame and the
intermediate values it produced. -/
theorem momentumTryBody_ok (pw : ℚ → ℚ → ℚ)
    (fetch : String → Except PyErr (List Quote))
    (anchor : List Quote → String → Except PyErr (Date × ℚ))
    (daysBetween : Date → Date → ℤ)
    (company : String) (t : TryOut)
    (hok : momentumTryBody pw fetch anchor daysBetween company = .ok t) :
    fetch company = .ok t.df ∧ iloc_neg t.df 1 = .ok t.lastQ ∧
      iloc_zero t.df = .ok t.firstQ ∧
      annualized_rate_of_return pw t.lastQ.close t.firstQ.close 1 =
        .ok t.ar_yearly := by
  unfold momentumTryBody at hok
  split at hok
  next e heq => cases hok
  next df hf =>
  split at hok
  next e heq => cases hok
  next lastQ h1 =>
  split at hok
  next e heq => cases hok
  next firstQ h0 =>
  split at hok
  next e heq => cases hok
  next ar_yearly hy =>
  split at hok
  next e heq => cases hok
  next a ha =>
  split at hok
  next e heq => cases hok
  next m30 h30 =>
  split at hok
  next e heq => cases hok
  next ar_monthly hm =>
  cases hok
  exact ⟨hf, h1, h0, hy⟩

/-- A collected pool result only contains per-task successes. -/
theorem collectResults_mem {l : List (Except PyErr α)} {rs : List α}
    (h : collectResults l = .ok rs) (a : α) (ha : a ∈ rs) : .ok a ∈ l := by
  induction l generalizing rs with
  | nil =>
    unfold collectResults at h
    cases h
    cases ha
  | cons x xs ih =>
    unfold collectResults at h
    cases x with
    | error e => cases h
    | ok b =>
      cases hrest : collectResults xs <;> rw [hrest] at h
      case error e => cases h
      case ok rest =>
      cases h
      rcases List.mem_cons.mp ha with h | h
      · subst h
        exact List.mem_cons_self _ _
      · exact List.mem_cons_of_mem _ (ih hrest h)

/-- Every row of the sorted-and-truncated output comes from the filtered
input list. -/
theorem mem_sort_take {l : List MomentumRecord} {r : MomentumRecord}
    {n : Nat} (h : r ∈ (sort_values_desc l).take n) : r ∈ l := by
  have h1 : r ∈ sort_values_desc l := List.mem_of_mem_take h
  unfold sort_values_desc at h1
  rw [List.mem_reverse] at h1
  exact (List.perm_insertionSort leRY l).mem_iff.mp h1

/-- Evaluation form of the EMA: under the success conditions, the result
is the recurrence folded over `data.drop 51`. -/
theorem ema_eval (data : List ℚ) (period : Nat) (s : ℚ) (dp : ℚ)
    (hp : period ≠ 0) (hget : data.get? period = some dp)
    (h52 : 52 ≤ data.length) :
    _exponential_moving_avarage data period s =
      .ok ((data.drop 51).foldl
        (fun pre x => x * (s / (1 + (period : ℚ))) +
          pre * (1 - s / (1 + (period : ℚ))))
        (dp * (s / (1 + (period : ℚ))) +
          ((data.take period).sum / (period : ℚ)) *
            (1 - s / (1 + (period : ℚ))))) := by
  unfold _exponential_moving_avarage
  rw [if_neg hp]
  split
  next heq => rw [heq] at hget; cases hget
  next dp2 heq =>
    rw [heq] at hget
    cases hget
    rw [if_neg (by omega : ¬ data.length ≤ 51)]
    rw [ema_loop_eq_foldl]

/-! ## Claim theorems -/

/-- C1 (amended): after seeding (k = smoothing/(1+period); sma0 =
mean(series[0:period]); ema0 = series[period]*k + sma0*(1-k)), the EMA
recurrence of `_exponential_moving_avarage` advances `idx` one position
per step, reading `series[idx + 50]` — an offset of fifty, not a stride —
so it consumes every observation from index 51 through the end of the
series (equivalently, it is the recurrence folded left over
`series.drop 51`); the loop stops when `idx` would reach
`len(series) - 50` and the last computed ema is returned (which requires
`len(series) ≥ 52`). -/
theorem ema_recurrence_offset50_consumes_tail (data : List ℚ) (period : Nat)
    (s : ℚ) (dp : ℚ) (hp : period ≠ 0) (hget : data.get? period = some dp)
    (h52 : 52 ≤ data.length) :
    _exponential_moving_avarage data period s =
      .ok ((data.drop 51).foldl
        (fun pre x => x * (s / (1 + (period : ℚ))) +
          pre * (1 - s / (1 + (period : ℚ))))
        (dp * (s / (1 + (period : ℚ))) +
          ((data.take period).sum / (period : ℚ)) *
            (1 - s / (1 + (period : ℚ))))) :=
  ema_eval data period s dp hp hget h52

/-- Witness for C1: on the 54-long series with a 2 at index 52 and ones
elsewhere, with period 3 and smoothing 2 (k = 1/2), the folded recurrence
yields 5/4. -/
theorem ema_recurrence_offset50_consumes_tail_witness :
    _exponential_moving_avarage (List.replicate 52 (1 : ℚ) ++ [2, 1]) 3 2 =
      .ok (5 / 4) := by
  rw [ema_recurrence_offset50_consumes_tail
    (List.replicate 52 (1 : ℚ) ++ [2, 1]) 3 2 1 (by norm_num)
    (by simp [List.getElem?_append_left]) (by simp)]
  rw [show List.drop 51 (List.replicate 52 (1 : ℚ) ++ [2, 1]) =
      ([1, 2, 1] : List ℚ) by
    rw [List.drop_append_of_le_length (by simp), List.drop_replicate]
    norm_num]
  rw [show List.take 3 (List.replicate 52 (1 : ℚ) ++ [2, 1]) =
      ([1, 1, 1] : List ℚ) by
    rw [List.take_append_of_le_length (by simp), List.take_replicate]
    norm_num [List.replicate_succ]]
  norm_num

/-- Counterexample to C1 as stated: the two series below agree at every
index except 52 — in particular on the whole seed window {0,…,3}, at
index 51 and every fiftieth position after it, and at the final index
53 — so a recurrence consuming only every 50th observation between seed
and final value would give them equal EMAs; the code gives 1 and 5/4,
because its loop also consumes index 52: it advances by one position, not
fifty. -/
theorem ema_stride50_claim_false :
    (List.replicate 54 (1 : ℚ)).take 52 =
        (List.replicate 52 (1 : ℚ) ++ [2, 1]).take 52 ∧
      (List.replicate 54 (1 : ℚ)).get? 53 =
        (List.replicate 52 (1 : ℚ) ++ [2, 1]).get? 53 ∧
      (List.replicate 54 (1 : ℚ)).length =
        (List.replicate 52 (1 : ℚ) ++ [2, 1]).length ∧
      _exponential_moving_avarage (List.replicate 54 (1 : ℚ)) 3 2 = .ok 1 ∧
      _exponential_moving_avarage (List.replicate 52 (1 : ℚ) ++ [2, 1]) 3 2 =
        .ok (5 / 4) := by
  refine ⟨?_, ?_, by simp, ?_, ?_⟩
  · rw [List.take_replicate, List.take_append_of_le_length (by simp),
      List.take_replicate]
    norm_num
  · simp [List.getElem?_append_right]
  · rw [ema_eval (List.replicate 54 (1 : ℚ)) 3 2 1 (by norm_num) (by simp)
      (by simp)]
    rw [List.drop_replicate, List.take_replicate]
    norm_num [List.replicate_succ]
  · rw [ema_eval (List.replicate 52 (1 : ℚ) ++ [2, 1]) 3 2 1 (by norm_num)
      (by simp [List.getElem?_append_left]) (by simp)]
    rw [show List.drop 51 (List.replicate 52 (1 : ℚ) ++ [2, 1]) =
        ([1, 2, 1] : List ℚ) by
      rw [List.drop_append_of_le_length (by simp), List.drop_replicate]
      norm_num]
    rw [show List.take 3 (List.replicate 52 (1 : ℚ) ++ [2, 1]) =
        ([1, 1, 1] : List ℚ) by
      rw [List.take_append_of_le_length (by simp), List.take_replicate]
      norm_num [List.replicate_succ]]
    norm_num

/-- C2 (amended): `_exponential_moving_avarage` returns a value iff the
period is positive, `len(series) > period` (otherwise `series[period]`
raises an index error), and additionally `len(series) ≥ 52` — for
`period < len(series) ≤ 51` the loop `range(1, len(series)-50)` is empty,
so `return ema` raises `UnboundLocalError`; a zero period raises
`ZeroDivisionError` in the seed SMA.  So failure is NOT equivalent to
`len(series) <= period`. -/
theorem ema_ok_iff (data : List ℚ) (period : Nat) (s : ℚ) :
    (∃ x, _exponential_moving_avarage data period s = .ok x) ↔
      (period ≠ 0 ∧ period < data.length ∧ 52 ≤ data.length) := by
  constructor
  · rintro ⟨x, hx⟩
    unfold _exponential_moving_avarage at hx
    by_cases hp : period = 0
    · rw [if_pos hp] at hx; cases hx
    rw [if_neg hp] at hx
    split at hx
    next heq => cases hx
    next dp heq =>
      by_cases h51 : data.length ≤ 51
      · rw [if_pos h51] at hx; cases hx
      · have hlt : period < data.length := by
          rcases List.get?_eq_some.mp heq with ⟨h, _⟩
          exact h
        exact ⟨hp, hlt, by omega⟩
  · rintro ⟨hp, hlt, h52⟩
    have hget : data.get? period = some (data.get ⟨period, hlt⟩) :=
      List.get?_eq_get hlt
    exact ⟨_, ema_eval data period s _ hp hget h52⟩

/-- Witness for C2 (amended): a 52-long series with period 1 succeeds. -/
theorem ema_ok_iff_witness :
    (_exponential_moving_avarage (List.replicate 52 (1 : ℚ)) 1 2).isOk =
      true := by
  rcases (ema_ok_iff (List.replicate 52 (1 : ℚ)) 1 2).mpr
    ⟨by norm_num, by simp, by simp⟩ with ⟨x, hx⟩
  rw [hx]
  rfl

/-- Counterexample to C2 as stated: the series `[1, 1]` has length 2 >
period 1, yet the EMA does not return a float — the loop body never runs
and `return ema` raises `UnboundLocalError`. -/
theorem ema_insufficient_iff_claim_false :
    1 < ([(1 : ℚ), 1]).length ∧
      _exponential_moving_avarage [(1 : ℚ), 1] 1 2 =
        .error .unboundLocalError := by
  refine ⟨by norm_num, ?_⟩
  unfold _exponential_moving_avarage
  norm_num

/-! ### Concrete fixtures used by witnesses and counterexamples -/

/-- A constant stand-in for the abstracted real power. -/
def pwConst : ℚ → ℚ → ℚ := fun _ _ => 1

/-- A fixed quote date. -/
def dW : Date := { year := 2020, month := 1, day := 1 }

/-- Thirty identical quotes closing at 1. -/
def quotes30 : List Quote := List.replicate 30 { date := dW, close := 1 }

/-- A provider that returns the same 30-row series for every ticker. -/
def fetchConst : String → Except PyErr (List Quote) := fun _ => .ok quotes30

/-- A provider that returns an empty frame for every ticker. -/
def fetchEmpty : String → Except PyErr (List Quote) := fun _ => .ok []

/-- A provider returning a one-row series whose close is 0 for RELIANCE
and the constant series otherwise. -/
def fetchMixed : String → Except PyErr (List Quote) := fun c =>
  if c == "RELIANCE" then .ok [{ date := dW, close := 0 }] else .ok quotes30

/-- A monthly-anchor stub. -/
def anchorConst : List Quote → String → Except PyErr (Date × ℚ) :=
  fun _ _ => .ok ({ year := 2020, month := 1, day := 2 }, 1)

/-- A day-difference stub. -/
def daysB30 : Date → Date → ℤ := fun _ _ => 30

/-- The record `_parallel_momentum` produces for a company under
`pwConst`/`fetchConst`/`anchorConst`/`daysB30`. -/
def recConst (c : String) : MomentumRecord :=
  { company := c, yearly_start_date := dW,
    yearly_start_date_close := some 1, yearly_end_date := dW,
    yearly_end_date_close := some 1, return_yearly := some 0,
    monthly_start_date := some { year := 2020, month := 1, day := 2 },
    monthly_start_date_close := some 1, monthly_end_date := dW,
    monthly_end_date_close := some 1, return_monthly := some 0 }

/-- C3: for a fixed company list and deterministic provider responses,
`momentum_strategy` produces the same ranked top-N output for any two
worker-pool sizes (any core counts that let the pool start) and any two
worker-completion orders: `pool.starmap` gathers results in task order,
so the output does not depend on scheduling. -/
theorem momentum_strategy_schedule_independent (pw : ℚ → ℚ → ℚ)
    (fetch : String → Except PyErr (List Quote))
    (anchor : List Quote → String → Except PyErr (Date × ℚ))
    (daysBetween : Date → Date → ℤ)
    (companies : List String) (top_company_count : Nat)
    (cpu1 cpu2 : Nat) (order1 order2 : List Nat)
    (hc1 : 2 ≤ cpu1) (hc2 : 2 ≤ cpu2)
    (hp1 : order1.Perm (List.range companies.length))
    (hp2 : order2.Perm (List.range companies.length)) :
    momentum_strategy pw fetch anchor daysBetween companies
        top_company_count cpu1 order1 =
      momentum_strategy pw fetch anchor daysBetween companies
        top_company_count cpu2 order2 := by
  rw [momentum_strategy_of_perm pw fetch anchor daysBetween companies
      top_company_count cpu1 order1 hc1 hp1,
    momentum_strategy_of_perm pw fetch anchor daysBetween companies
      top_company_count cpu2 order2 hc2 hp2]

/-- Witness for C3: a 1-worker pool (2 cores) completing in reverse order
and an 8-worker pool (9 cores) completing in input order give the same
output. -/
theorem momentum_strategy_schedule_independent_witness :
    momentum_strategy pwConst fetchConst anchorConst daysB30
        ["AAA", "BBB"] 20 2 [1, 0] =
      momentum_strategy pwConst fetchConst anchorConst daysB30
        ["AAA", "BBB"] 20 9 [0, 1] :=
  momentum_strategy_schedule_independent pwConst fetchConst anchorConst
    daysB30 ["AAA", "BBB"] 20 2 9 [1, 0] [0, 1] (by norm_num) (by norm_num)
    (by rw [show List.range (["AAA", "BBB"] : List String).length = [0, 1]
          from rfl]
        exact List.Perm.swap 0 1 [])
    (by rw [show List.range (["AAA", "BBB"] : List String).length = [0, 1]
          from rfl])

/-- C4 (amended): `_parallel_momentum` converts a failure of its `try`
block into the unusable record exactly when the exception is an
`IndexError`, `KeyError` or `ValueError` — the only types its `except`
clause names; any other exception (for example the `ZeroDivisionError`
the spec assigns to `annualized_rate_of_return` on a zero start price, or
a provider connection error) propagates out of `_parallel_momentum`. -/
theorem parallel_momentum_exception_policy (pw : ℚ → ℚ → ℚ)
    (fetch : String → Except PyErr (List Quote))
    (anchor : List Quote → String → Except PyErr (Date × ℚ))
    (daysBetween : Date → Date → ℤ) (company : String) (e : PyErr)
    (hbody : momentumTryBody pw fetch anchor daysBetween company =
      .error e) :
    _parallel_momentum pw fetch anchor daysBetween company =
      (if caughtByMomentum e then .ok (unusableRecord company)
        else .error e) := by
  unfold _parallel_momentum
  rw [hbody]

/-- Witness for C4 (amended): a caught `IndexError` (empty frame) yields
the unusable record. -/
theorem parallel_momentum_exception_policy_witness :
    _parallel_momentum pwConst fetchEmpty anchorConst daysB30 "INFY" =
      .ok (unusableRecord "INFY") := by
  rw [parallel_momentum_exception_policy pwConst fetchEmpty anchorConst
    daysB30 "INFY" .indexError
    (by unfold momentumTryBody
        norm_num [fetchEmpty, iloc_neg])]
  rfl

/-- Counterexample to C4 as stated: a company whose first close is 0
makes the spec-modelled `annualized_rate_of_return` raise
`ZeroDivisionError`, which the `except (IndexError, KeyError,
ValueError)` clause does not catch: the exception propagates out of
`_parallel_momentum`, and through `pool.starmap` it aborts the whole
`momentum_strategy` run, discarding the other company's evaluation. -/
theorem parallel_momentum_containment_claim_false :
    _parallel_momentum pwConst fetchMixed anchorConst daysB30 "RELIANCE" =
        .error .zeroDivisionError ∧
      _parallel_momentum pwConst fetchMixed anchorConst daysB30 "TCS" =
        .ok (recConst "TCS") ∧
      momentum_strategy pwConst fetchMixed anchorConst daysB30
        ["RELIANCE", "TCS"] 20 2 [0, 1] = .error .zeroDivisionError := by
  refine ⟨?_, ?_, ?_⟩
  · unfold _parallel_momentum momentumTryBody
    norm_num [fetchMixed, iloc_neg, iloc_zero, annualized_rate_of_return,
      caughtByMomentum]
  · unfold _parallel_momentum momentumTryBody
    rw [show fetchMixed "TCS" = .ok quotes30 from rfl]
    norm_num [quotes30, iloc_neg, iloc_zero,
      annualized_rate_of_return, pwConst, anchorConst, daysB30, recConst, dW]
  · unfold momentum_strategy
    norm_num [Pool_create, pool_size, pool_starmap, pool_gather,
      pool_completed, List.range_succ]
    unfold _parallel_momentum momentumTryBody
    rw [show fetchMixed "RELIANCE" = .ok [{ date := dW, close := 0 }]
      from rfl]
    norm_num [iloc_neg, iloc_zero, annualized_rate_of_return,
      caughtByMomentum, collectResults]

/-- C5 (amended): for every company whose evaluation fails with a caught
exception, `_parallel_momentum` still returns a record for that company
in which every numeric field (yearly/monthly closes and returns) is
absent, the `yearly_start_date`, `yearly_end_date` and
`monthly_end_date` fields are the sentinel epoch 01-01-1000, and
`monthly_start_date` is absent (`pd.NA`) rather than the sentinel; and
every record in `momentum_strategy`'s ranked output has no absent
field — `dropna()` removed the unusable ones. -/
theorem parallel_momentum_unusable_record (pw : ℚ → ℚ → ℚ)
    (fetch : String → Except PyErr (List Quote))
    (anchor : List Quote → String → Except PyErr (Date × ℚ))
    (daysBetween : Date → Date → ℤ) :
    (∀ company e,
      momentumTryBody pw fetch anchor daysBetween company = .error e →
      caughtByMomentum e = true →
      _parallel_momentum pw fetch anchor daysBetween company =
          .ok (unusableRecord company) ∧
        (unusableRecord company).yearly_start_date_close = none ∧
        (unusableRecord company).yearly_end_date_close = none ∧
        (unusableRecord company).return_yearly = none ∧
        (unusableRecord company).monthly_start_date_close = none ∧
        (unusableRecord company).monthly_end_date_close = none ∧
        (unusableRecord company).return_monthly = none ∧
        (unusableRecord company).yearly_start_date = sentinelDate ∧
        (unusableRecord company).yearly_end_date = sentinelDate ∧
        (unusableRecord company).monthly_end_date = sentinelDate ∧
        (unusableRecord company).monthly_start_date = none ∧
        (unusableRecord company).hasNA = true) ∧
    (∀ companies top_company_count cpu_count order out,
      momentum_strategy pw fetch anchor daysBetween companies
          top_company_count cpu_count order = .ok out →
      ∀ r, r ∈ out → r.hasNA = false) := by
  constructor
  · intro company e hbody hcaught
    refine ⟨?_, rfl, rfl, rfl, rfl, rfl, rfl, rfl, rfl, rfl, rfl, rfl⟩
    unfold _parallel_momentum
    rw [hbody]
    simp only [hcaught, if_true]
  · intro companies top_company_count cpu_count order out hok r hr
    unfold momentum_strategy at hok
    split at hok
    next e heq => cases hok
    next n heq =>
    split at hok
    next e heq2 => cases hok
    next result heq2 =>
    cases hok
    have hmem := mem_sort_take hr
    have := List.mem_filter.mp hmem
    simpa using this.2

/-- Witness for C5 (amended): an empty provider frame is a caught
`IndexError`, so the company still yields the unusable record. -/
theorem parallel_momentum_unusable_record_witness :
    _parallel_momentum pwConst fetchEmpty anchorConst daysB30 "WIPRO" =
      .ok (unusableRecord "WIPRO") :=
  (((parallel_momentum_unusable_record pwConst fetchEmpty anchorConst
    daysB30).1 "WIPRO" .indexError
    (by unfold momentumTryBody
        norm_num [fetchEmpty, iloc_neg]) rfl)).1

/-- Counterexample to C5 as stated: for a failed company the record's
`monthly_start_date` is `pd.NA`, not the sentinel epoch 01-01-1000, so
not all dates of the unusable record are the sentinel. -/
theorem unusable_monthly_start_date_not_sentinel :
    _parallel_momentum pwConst fetchEmpty anchorConst daysB30 "HDFC" =
        .ok (unusableRecord "HDFC") ∧
      (unusableRecord "HDFC").monthly_start_date ≠ some sentinelDate ∧
      (unusableRecord "HDFC").yearly_start_date = sentinelDate := by
  refine ⟨?_, by simp [unusableRecord], rfl⟩
  unfold _parallel_momentum momentumTryBody
  norm_num [fetchEmpty, iloc_neg, caughtByMomentum]

/-- C6 (amended): the ranked output is the usable records sorted by
`return_yearly` descending and truncated to `top_company_count`; no
company-name tie-break exists — pandas sorts the single column ascending
with the default quicksort and then reverses the indexer, so rows with
equal returns come out in reverse input order, not name-ascending
order. -/
theorem momentum_sort_desc_truncate (pw : ℚ → ℚ → ℚ)
    (fetch : String → Except PyErr (List Quote))
    (anchor : List Quote → String → Except PyErr (Date × ℚ))
    (daysBetween : Date → Date → ℤ)
    (companies : List String) (top_company_count : Nat)
    (cpu_count : Nat) (order : List Nat) (rs : List MomentumRecord)
    (hcpu : 2 ≤ cpu_count)
    (hperm : order.Perm (List.range companies.length))
    (hres : momentum_results pw fetch anchor daysBetween companies =
      .ok rs) :
    momentum_strategy pw fetch anchor daysBetween companies
          top_company_count cpu_count order =
        .ok ((sort_values_desc (rs.filter (fun r => !r.hasNA))).take
          top_company_count) ∧
      (sort_values_desc (rs.filter (fun r => !r.hasNA))).Perm
        (rs.filter (fun r => !r.hasNA)) ∧
      List.Sorted (fun a b => keyRY b ≤ keyRY a)
        (sort_values_desc (rs.filter (fun r => !r.hasNA))) := by
  refine ⟨?_, ?_, ?_⟩
  · rw [momentum_strategy_of_perm pw fetch anchor daysBetween companies
      top_company_count cpu_count order hcpu hperm]
    rw [hres]
  · exact (List.reverse_perm _).trans (List.perm_insertionSort leRY _)
  · exact List.pairwise_reverse.mpr (List.sorted_insertionSort leRY _)

/-- Witness for C6 (amended): concrete two-company run. -/
theorem momentum_sort_desc_truncate_witness :
    momentum_strategy pwConst fetchConst anchorConst daysB30
        ["AAA", "BBB"] 20 2 [0, 1] =
      .ok ((sort_values_desc
        (([recConst "AAA", recConst "BBB"]).filter (fun r => !r.hasNA))).take
          20) :=
  (momentum_sort_desc_truncate pwConst fetchConst anchorConst daysB30
    ["AAA", "BBB"] 20 2 [0, 1] [recConst "AAA", recConst "BBB"]
    (by norm_num)
    (by rw [show List.range (["AAA", "BBB"] : List String).length = [0, 1]
        from rfl])
    (by unfold momentum_results _parallel_momentum momentumTryBody
        norm_num [fetchConst, anchorConst, daysB30, pwConst, quotes30,
          iloc_neg, iloc_zero, annualized_rate_of_return, dW,
          collectResults, recConst])).1

/-- Concrete evaluation of the two-company constant-fixture run: both
returns are 0, and the tied rows come out in reverse input order. -/
theorem momentum_strategy_constAABB :
    momentum_strategy pwConst fetchConst anchorConst daysB30
        ["AAA", "BBB"] 20 2 [0, 1] =
      .ok [recConst "BBB", recConst "AAA"] := by
  unfold momentum_strategy
  norm_num [Pool_create, pool_size, pool_starmap, pool_gather,
    pool_completed, List.range_succ]
  unfold _parallel_momentum momentumTryBody
  norm_num [fetchConst, anchorConst, daysB30, pwConst, quotes30, iloc_neg,
    iloc_zero, annualized_rate_of_return, dW, collectResults,
    MomentumRecord.hasNA, sort_values_desc, List.insertionSort,
    List.orderedInsert, leRY, keyRY, recConst]

/-- Counterexample to C6 as stated: two companies with equal yearly
returns, supplied in the order AAA, BBB, come out of the ranked output as
BBB then AAA — ties are not broken by company name ascending (which would
put AAA first); pandas' descending sort reverses tied rows. -/
theorem momentum_sort_tiebreak_claim_false :
    momentum_strategy pwConst fetchConst anchorConst daysB30
        ["AAA", "BBB"] 20 2 [0, 1] =
        .ok [recConst "BBB", recConst "AAA"] ∧
      (recConst "BBB").return_yearly = (recConst "AAA").return_yearly ∧
      (("AAA" : String) < "BBB") :=
  ⟨momentum_strategy_constAABB, rfl,
    by simp [List.lt_iff_lex_lt]; exact List.Lex.rel (by decide)⟩

/-- C7: whenever the provider fetch succeeds and `_parallel_momentum`
produces a record whose yearly return is present, that return is exactly
`annualized_rate_of_return` applied to the last close (`iloc[-1]`) as end
price, the first close (`iloc[0]`) as start price, and a duration of
exactly 1. -/
theorem return_yearly_from_first_last (pw : ℚ → ℚ → ℚ)
    (fetch : String → Except PyErr (List Quote))
    (anchor : List Quote → String → Except PyErr (Date × ℚ))
    (daysBetween : Date → Date → ℤ) (company : String)
    (df : List Quote) (r : MomentumRecord) (ry : ℚ)
    (hdf : fetch company = .ok df)
    (hr : _parallel_momentum pw fetch anchor daysBetween company = .ok r)
    (hry : r.return_yearly = some ry) :
    (iloc_neg df 1).bind (fun lastQ =>
      (iloc_zero df).bind (fun firstQ =>
        annualized_rate_of_return pw lastQ.close firstQ.close 1)) =
      .ok ry := by
  unfold _parallel_momentum at hr
  split at hr
  next t htb =>
    cases hr
    obtain ⟨hf, h1, h0, hy⟩ :=
      momentumTryBody_ok pw fetch anchor daysBetween company t htb
    rw [hdf] at hf
    injection hf with hdfeq
    subst hdfeq
    simp only [Option.some.injEq] at hry
    subst hry
    rw [h1]
    simp only [Except.bind]
    rw [h0]
    simp only [Except.bind]
    exact hy
  next e htb =>
    split at hr
    · cases hr
      simp [unusableRecord] at hry
    · cases hr

/-- Witness for C7: the constant fixture run, where the yearly return is
0 and the annualized formula evaluates to `.ok 0`. -/
theorem return_yearly_from_first_last_witness :
    (iloc_neg quotes30 1).bind (fun lastQ =>
      (iloc_zero quotes30).bind (fun firstQ =>
        annualized_rate_of_return pwConst lastQ.close firstQ.close 1)) =
      .ok 0 :=
  return_yearly_from_first_last pwConst fetchConst anchorConst daysB30
    "TCS" quotes30 (recConst "TCS") 0 rfl
    (by unfold _parallel_momentum momentumTryBody
        norm_num [fetchConst, anchorConst, daysB30, pwConst, quotes30,
          iloc_neg, iloc_zero, annualized_rate_of_return, dW, recConst])
    rfl

/-- C8 (amended): the worker pool is created with exactly
`cpu_count() - 1` processes and there is NO minimum of one: on a machine
with a single logical core the expression is 0 and
`multiprocessing.Pool` raises `ValueError`, so `momentum_strategy` fails
there instead of running; with at least two cores pool creation
succeeds with `cpu_count - 1` workers. -/
theorem pool_size_no_minimum (cpu_count : Nat) :
    (Pool_create (pool_size cpu_count) =
      if cpu_count ≤ 1 then .error .valueError
      else .ok (cpu_count - 1)) ∧
    (∀ pw fetch anchor daysBetween companies top_company_count order,
      cpu_count ≤ 1 →
      momentum_strategy pw fetch anchor daysBetween companies
        top_company_count cpu_count order = .error .valueError) := by
  constructor
  · unfold Pool_create pool_size
    by_cases h : cpu_count ≤ 1
    · rw [if_pos (by omega : cpu_count - 1 < 1), if_pos h]
    · rw [if_neg (by omega : ¬ cpu_count - 1 < 1), if_neg h]
  · intro pw fetch anchor daysBetween companies top_company_count order h
    unfold momentum_strategy Pool_create pool_size
    rw [if_pos (by omega : cpu_count - 1 < 1)]

/-- Witness for C8 (amended): a single-core run fails with `ValueError`. -/
theorem pool_size_no_minimum_witness :
    momentum_strategy pwConst fetchConst anchorConst daysB30 ["AAA"] 20 1
      [0] = .error .valueError :=
  (pool_size_no_minimum 1).2 pwConst fetchConst anchorConst daysB30
    ["AAA"] 20 [0] (by norm_num)

/-- Counterexample to C8 as stated: on one logical core the pool size
expression is `1 - 1 = 0`, `multiprocessing.Pool(0)` raises `ValueError`,
and `momentum_strategy` aborts — pool creation does not succeed on every
machine and there is no minimum of 1. -/
theorem pool_size_minimum_claim_false :
    pool_size 1 = 0 ∧
      Pool_create (pool_size 1) = .error .valueError ∧
      momentum_strategy pwConst fetchConst anchorConst daysB30
        ["AAA", "BBB"] 20 1 [0, 1] = .error .valueError := by
  refine ⟨rfl, rfl, ?_⟩
  unfold momentum_strategy Pool_create pool_size
  norm_num

/-- A fixed EMA row for a company. -/
def emaConst (c : String) : EMARecord :=
  { company := c, ema50 := 1, ema200 := 1, action := .sell }

/-- Mapping `Prod.fst` over a filterMap that pairs each element with a
looked-up partner recovers the original list when every lookup
succeeds. -/
theorem filterMap_pair_fst {β : Type} (l : List MomentumRecord)
    (g : MomentumRecord → Option β)
    (h : ∀ m, m ∈ l → (g m).isSome = true) :
    (l.filterMap (fun m => (g m).map (fun e => (m, e)))).map Prod.fst =
      l := by
  induction l with
  | nil => rfl
  | cons a rest ih =>
    have ha := h a (List.mem_cons_self a rest)
    rcases Option.isSome_iff_exists.mp ha with ⟨e, he⟩
    rw [List.filterMap_cons, he]
    simp only [Option.map_some']
    rw [List.map_cons]
    rw [ih (fun m hm => h m (List.mem_cons_of_mem a hm))]

/-- C9: the merge of the momentum and EMA tables joins on company with
1:1 cardinality — it fails with pandas' `MergeError` whenever a company
appears more than once on either side, and with no duplicates and equal
company sets it returns one row per momentum-table company, in momentum
order. -/
theorem merge_validate_1to1 (momentum : List MomentumRecord)
    (ema : List EMARecord) :
    (¬ ((momentum.map MomentumRecord.company).Nodup ∧
        (ema.map EMARecord.company).Nodup) →
      merge_1to1 momentum ema = .error .mergeError) ∧
    ((momentum.map MomentumRecord.company).Nodup →
      (ema.map EMARecord.company).Nodup →
      (∀ c, c ∈ momentum.map MomentumRecord.company ↔
        c ∈ ema.map EMARecord.company) →
      merge_1to1 momentum ema =
          .ok (momentum.filterMap (fun m =>
            (ema.find? (fun e => e.company == m.company)).map
              (fun e => (m, e)))) ∧
        (momentum.filterMap (fun m =>
          (ema.find? (fun e => e.company == m.company)).map
            (fun e => (m, e)))).map Prod.fst = momentum) := by
  constructor
  · intro hdup
    unfold merge_1to1
    rw [if_neg hdup]
  · intro hm he hiff
    refine ⟨?_, ?_⟩
    · unfold merge_1to1
      rw [if_pos ⟨hm, he⟩]
    · apply filterMap_pair_fst
      intro m hmem
      have hcm : m.company ∈ ema.map EMARecord.company :=
        (hiff m.company).mp (List.mem_map_of_mem MomentumRecord.company hmem)
      rcases List.mem_map.mp hcm with ⟨e, hce, hcc⟩
      rw [List.find?_isSome]
      exact ⟨e, hce, by simp [hcc]⟩

/-- Witness for C9: singleton tables with the same company merge into
one row. -/
theorem merge_validate_1to1_witness :
    (merge_1to1 [recConst "AAA"] [emaConst "AAA"]).isOk = true := by
  have h := (merge_validate_1to1 [recConst "AAA"] [emaConst "AAA"]).2
    (by simp) (by simp) (by simp [recConst, emaConst])
  rw [h.1]
  rfl

/-- C10: `momentum_with_ema_strategy` can never produce a merged report:
`Indicator.__init__` accepts only the `path` keyword, so the call
`Indicator(company_name=...)` raises `TypeError`, and the subsequent call
`ema_indicator(ema_canditate=..., cutoff_date=..., save=...,
verbosity=...)` would also be a `TypeError` against its `(export_path,
verbosity)` signature (and `ema_indicator` returns `None`, which the
merge would reject too) — whenever the momentum stage succeeds, the
strategy fails with `TypeError` before reaching the merge, and on every
input the strategy returns an error. -/
theorem with_ema_always_typeerror (pw : ℚ → ℚ → ℚ)
    (fetch : String → Except PyErr (List Quote))
    (anchor : List Quote → String → Except PyErr (Date × ℚ))
    (daysBetween : Date → Date → ℤ)
    (companies : List String) (top_company_count : Nat)
    (cpu_count : Nat) (order : List Nat) :
    call_accepts_kwargs Indicator_init_params ["company_name"] = false ∧
      call_accepts_kwargs ema_indicator_params
        ["ema_canditate", "cutoff_date", "save", "verbosity"] = false ∧
      (∀ m, momentum_strategy pw fetch anchor daysBetween companies
          top_company_count cpu_count order = .ok m →
        momentum_with_ema_strategy pw fetch anchor daysBetween companies
          top_company_count cpu_count order = .error .typeError) ∧
      (momentum_with_ema_strategy pw fetch anchor daysBetween companies
        top_company_count cpu_count order).isOk = false := by
  refine ⟨rfl, rfl, ?_, ?_⟩
  · intro m hok
    unfold momentum_with_ema_strategy
    rw [hok]
    rfl
  · unfold momentum_with_ema_strategy
    split
    · rfl
    · rfl

/-- Witness for C10: on the two-company fixture the momentum stage
succeeds, and the combined strategy fails with `TypeError`. -/
theorem with_ema_always_typeerror_witness :
    momentum_with_ema_strategy pwConst fetchConst anchorConst daysB30
      ["AAA", "BBB"] 20 2 [0, 1] = .error .typeError :=
  (with_ema_always_typeerror pwConst fetchConst anchorConst daysB30
    ["AAA", "BBB"] 20 2 [0, 1]).2.2.1 [recConst "BBB", recConst "AAA"]
    momentum_strategy_constAABB
